import Mathlib

/-!
Verification development for the camera_windows plugin
(packages/camera/camera_windows/windows).

The development shallowly embeds the session host (CameraImpl,
camera.cpp), the capture controller (CaptureControllerImpl,
capture_controller.cpp) and the preview handler (PreviewHandler,
preview_handler.cpp).  Machine integers are modelled as Nat or Int;
fallible C++ code whose execution can dereference a null pointer is
modelled as an Option, with none standing for the crash (undefined
behavior).  External collaborators (the Media Foundation engine, the
texture registrar, the method-channel messenger) are modelled as
oracle fields of the state or as emitted trace events.
-/

namespace CameraWindows

/-! ### Session host (CameraImpl, camera.cpp) -/

/-- The operation kinds of the pending-result map (PendingResultType in
camera.h; the INITIALIZE member is rendered here as initializeCamera). -/
inductive PendingResultType
  | createCamera
  | initializeCamera
  | resumePreview
  | pausePreview
  | startRecord
  | stopRecord
  | takePicture
deriving DecidableEq

/-- All seven operation kinds, used to enumerate the pending-result map. -/
def allPendingResultTypes : List PendingResultType :=
  [.createCamera, .initializeCamera, .resumePreview, .pausePreview,
   .startRecord, .stopRecord, .takePicture]

/-- A resolution of a flutter MethodResult.  The claims under
verification only inspect error resolutions, so the success payloads are
not modelled in detail. -/
inductive MethodOutcome
  | methodError (code : String) (description : String)
deriving DecidableEq

/-- Asynchronous push notifications sent over the method channel built by
BuildChannelForCamera (camera.cpp). -/
inductive BridgeEvent
  | errorEvent (description : String)
  | videoRecordedEvent (path : String) (maxVideoDuration : Int)
deriving DecidableEq

/-- State of a CameraImpl object.  Each pending MethodResult object is
identified by a natural-number token; pendingResults is the
pending_results_ map keyed by operation kind.  messenger is true when
messenger_ is non-null, cameraId is camera_id_, hasCaptureController is
true while capture_controller_ is non-null. -/
structure CameraState where
  pendingResults : PendingResultType → Option Nat
  messenger : Bool
  cameraId : Int
  hasCaptureController : Bool

/-- CameraImpl::AddPendingResult (camera.cpp lines 64-76).  Returns the
bool result, the new state, and the list of MethodResult resolutions
performed during the call (the token tok identifies the newly supplied
result object). -/
def addPendingResult (s : CameraState) (t : PendingResultType) (tok : Nat) :
    Bool × CameraState × List (Nat × MethodOutcome) :=
  match s.pendingResults t with
  | some _ =>
      (false, s, [(tok, .methodError "Duplicate request" "Method handler already called")])
  | none =>
      (true,
       { s with pendingResults := fun u => if u = t then some tok else s.pendingResults u },
       [])

/-- CameraImpl::GetPendingResultByType (camera.cpp lines 78-90): moves
the stored result out of the map and erases its slot. -/
def getPendingResultByType (s : CameraState) (t : PendingResultType) :
    Option Nat × CameraState :=
  match s.pendingResults t with
  | none => (none, s)
  | some tok =>
      (some tok,
       { s with pendingResults := fun u => if u = t then none else s.pendingResults u })

/-- CameraImpl::HasPendingResultByType (camera.cpp lines 92-101). -/
def hasPendingResultByType (s : CameraState) (t : PendingResultType) : Bool :=
  (s.pendingResults t).isSome

/-- The tokens of the currently pending results, enumerated over the
operation kinds. -/
def pendingTokens (s : CameraState) : List Nat :=
  allPendingResultTypes.filterMap s.pendingResults

/-- CameraImpl::SendErrorForPendingResults (camera.cpp lines 103-109):
calls Error on every pending result and clears the map. -/
def sendErrorForPendingResults (s : CameraState) (errorId description : String) :
    CameraState × List (Nat × MethodOutcome) :=
  ({ s with pendingResults := fun _ => none },
   allPendingResultTypes.filterMap fun t =>
     (s.pendingResults t).map fun tok => (tok, .methodError errorId description))

/-- The CameraImpl destructor (camera.cpp lines 32-37): releases the
capture controller, then force-fails every pending result with the fixed
disposal error. -/
def cameraDispose (s : CameraState) : CameraState × List (Nat × MethodOutcome) :=
  sendErrorForPendingResults { s with hasCaptureController := false }
    "Plugin disposed" "Plugin disposed before request was handled"

/-- CameraImpl::OnVideoRecordSucceeded (camera.cpp lines 237-250):
emits the video_recorded push event when the messenger is set and the
camera id is nonnegative. -/
def onVideoRecordSucceeded (s : CameraState) (filepath : String)
    (videoDuration : Int) : CameraState × List BridgeEvent :=
  if s.messenger = true ∧ 0 ≤ s.cameraId then
    (s, [.videoRecordedEvent filepath videoDuration])
  else (s, [])

/-- CameraImpl::OnVideoRecordFailed (camera.cpp line 253): the body of
the function is empty.  Result: new state, emitted bridge events,
MethodResult resolutions. -/
def onVideoRecordFailed (s : CameraState) (error : String) :
    CameraState × List BridgeEvent × List (Nat × MethodOutcome) :=
  (s, [], [])

/-- CameraImpl::OnCaptureError (camera.cpp lines 255-265): emits the
error push event when the messenger is set and the camera id is
nonnegative, then force-fails every pending result with capture_error.
Result: new state, emitted bridge events, MethodResult resolutions. -/
def onCaptureError (s : CameraState) (error : String) :
    CameraState × List BridgeEvent × List (Nat × MethodOutcome) :=
  let notifications :=
    if s.messenger = true ∧ 0 ≤ s.cameraId then [BridgeEvent.errorEvent error]
    else []
  let r := sendErrorForPendingResults s "capture_error" error
  (r.1, notifications, r.2)

/-! ### Resolution presets and media type selection
(capture_controller.cpp) -/

/-- ResolutionPreset (from the camera_windows plugin types header). -/
inductive ResolutionPreset
  | low
  | medium
  | high
  | veryHigh
  | ultraHigh
  | auto
deriving DecidableEq

/-- CaptureControllerImpl::GetMaxPreviewHeight (capture_controller.cpp
lines 397-420).  The AUTO and default cases return 0xffffffff. -/
def getMaxPreviewHeight : ResolutionPreset → Nat
  | .low => 240
  | .medium => 480
  | .high => 720
  | .veryHigh => 1080
  | .ultraHigh => 2160
  | .auto => 4294967295

/-- One iteration of the candidate loop of FindBestMediaType
(capture_controller.cpp lines 434-452).  The accumulator carries the
currently selected media type together with best_width and best_height;
a candidate c = (frame_width, frame_height) replaces the selection when
its height fits under the cap and its width or height strictly exceeds
the best seen so far. -/
def findBestStep (maxHeight : Nat) (acc : Option (Nat × Nat) × Nat × Nat)
    (c : Nat × Nat) : Option (Nat × Nat) × Nat × Nat :=
  if c.2 ≤ maxHeight ∧ (acc.2.1 < c.1 ∨ acc.2.2 < c.2) then (some c, c.1, c.2)
  else acc

/-- FindBestMediaType (capture_controller.cpp lines 423-460), on the
list of (frame_width, frame_height) candidates enumerated by
GetAvailableDeviceMediaType in input order (candidates whose frame size
attribute cannot be read are skipped by the code and are therefore not
in the list).  Returns the selected media type, identified by its frame
size, or none when no candidate was ever selected. -/
def findBestMediaType (maxHeight : Nat) (candidates : List (Nat × Nat)) :
    Option (Nat × Nat) :=
  (candidates.foldl (findBestStep maxHeight) (none, 0, 0)).1

/-- The best_width tracker of FindBestMediaType after scanning the given
candidates. -/
def bestWidth (maxHeight : Nat) (candidates : List (Nat × Nat)) : Nat :=
  (candidates.foldl (findBestStep maxHeight) (none, 0, 0)).2.1

/-- The best_height tracker of FindBestMediaType after scanning the
given candidates. -/
def bestHeight (maxHeight : Nat) (candidates : List (Nat × Nat)) : Nat :=
  (candidates.foldl (findBestStep maxHeight) (none, 0, 0)).2.2

/-! ### Preview handler (preview_handler.cpp) -/

/-- PreviewState (from preview_handler.h): stopped is the initial
state. -/
inductive PreviewState
  | stopped
  | starting
  | running
  | paused
  | stopping
deriving DecidableEq

/-- PreviewHandler::PausePreview (preview_handler.cpp lines 141-147):
succeeds only from RUNNING; otherwise returns false and leaves the
state unchanged. -/
def PreviewHandler.pausePreview (ps : PreviewState) : Bool × PreviewState :=
  if ps = .running then (true, .paused) else (false, ps)

/-- PreviewHandler::ResumePreview (preview_handler.cpp lines 149-155):
succeeds only from PAUSED; otherwise returns false and leaves the state
unchanged. -/
def PreviewHandler.resumePreview (ps : PreviewState) : Bool × PreviewState :=
  if ps = .paused then (true, .running) else (false, ps)

/-- PreviewHandler::OnPreviewStarted (preview_handler.cpp lines
157-162): transitions STARTING to RUNNING, otherwise leaves the state
unchanged (the assert is a defensive check only). -/
def PreviewHandler.onPreviewStarted (ps : PreviewState) : PreviewState :=
  if ps = .starting then .running else ps

/-- PreviewHandler::StopPreview (preview_handler.cpp lines 131-139):
from STARTING, RUNNING or PAUSED transitions to STOPPING and issues the
engine StopPreview call (the returned flag tells whether the engine call
was issued; its HRESULT is an external outcome not modelled here). -/
def PreviewHandler.stopPreview (ps : PreviewState) : Bool × PreviewState :=
  if ps = .starting ∨ ps = .running ∨ ps = .paused then (true, .stopping)
  else (false, ps)

/-- Modelled from the spec: PreviewHandler::IsStarting (preview_handler.h
is not under src/); per the spec the preview handler is in STARTING
between startPreview and the first delivered frame. -/
def PreviewHandler.isStarting (ps : PreviewState) : Bool := ps = .starting

/-! ### Record handler (spec-modelled) and photo handler
(spec-modelled) -/

/-- Modelled from the spec: the recording mode of RecordHandler
(record_handler.cpp is not under src/); continuous is open-ended, timed
is bounded by a max duration (spec section 4.4). -/
inductive RecordingType
  | continuous
  | timed
deriving DecidableEq

/-- Modelled from the spec: the recording lifecycle state of
RecordHandler (record_handler.cpp is not under src/); spec section 4.4
lists idle, starting/started and stopping. -/
inductive RecordState
  | idle
  | starting
  | running
  | stopping
deriving DecidableEq

/-- Modelled from the spec: the RecordHandler object (record_handler.cpp
is not under src/).  rtype and recordPath are fixed at start time;
recordedDurationUs accumulates elapsed microseconds from frame
timestamps; stopSucceeds is an oracle for the HRESULT of the engine
StopRecord call issued by RecordHandler::StopRecord. -/
structure RecordHandler where
  rtype : RecordingType
  recState : RecordState
  recordPath : String
  maxVideoDurationMs : Nat
  recordStartTimestampUs : Option Nat
  recordedDurationUs : Nat
  stopSucceeds : Bool

/-- Modelled from the spec: RecordHandler::IsTimedRecording
(record_handler.cpp is not under src/). -/
def RecordHandler.isTimedRecording (h : RecordHandler) : Bool :=
  h.rtype = .timed

/-- Modelled from the spec: RecordHandler::IsContinuousRecording
(record_handler.cpp is not under src/). -/
def RecordHandler.isContinuousRecording (h : RecordHandler) : Bool :=
  h.rtype = .continuous

/-- Modelled from the spec: RecordHandler::CanStop (record_handler.cpp
is not under src/); per spec section 4.4 it is false while idle and
true while a recording is active. -/
def RecordHandler.canStop (h : RecordHandler) : Bool :=
  h.recState = .running

/-- Modelled from the spec: RecordHandler::CanStart (record_handler.cpp
is not under src/); false exactly while a recording is active. -/
def RecordHandler.canStart (h : RecordHandler) : Bool :=
  h.recState = .idle

/-- Modelled from the spec: RecordHandler::UpdateRecordingTime
(record_handler.cpp is not under src/); accumulates elapsed
microseconds from frame timestamps, measured from the first timestamp
seen. -/
def RecordHandler.updateRecordingTime (h : RecordHandler) (timestampUs : Nat) :
    RecordHandler :=
  match h.recordStartTimestampUs with
  | none => { h with recordStartTimestampUs := some timestampUs, recordedDurationUs := 0 }
  | some start => { h with recordedDurationUs := timestampUs - start }

/-- Modelled from the spec: RecordHandler::ShouldStopTimedRecording
(record_handler.cpp is not under src/); true once the mode is timed and
the accumulated time has reached the configured budget. -/
def RecordHandler.shouldStopTimedRecording (h : RecordHandler) : Bool :=
  h.rtype = .timed ∧ h.maxVideoDurationMs * 1000 ≤ h.recordedDurationUs

/-- Modelled from the spec: RecordHandler::GetRecordedDuration
(record_handler.cpp is not under src/). -/
def RecordHandler.getRecordedDuration (h : RecordHandler) : Nat :=
  h.recordedDurationUs

/-- Modelled from the spec: the state mutation of
RecordHandler::StopRecord on a successful engine call
(record_handler.cpp is not under src/): the recording moves to the
stopping state; the engine call HRESULT is the stopSucceeds oracle. -/
def RecordHandler.markStopping (h : RecordHandler) : RecordHandler :=
  { h with recState := .stopping }

/-- Modelled from the spec: RecordHandler::OnRecordStarted
(record_handler.cpp is not under src/): the recording becomes
active. -/
def RecordHandler.onRecordStarted (h : RecordHandler) : RecordHandler :=
  { h with recState := .running }

/-- Modelled from the spec: RecordHandler::OnRecordStopped
(record_handler.cpp is not under src/): the recording returns to the
idle state. -/
def RecordHandler.onRecordStopped (h : RecordHandler) : RecordHandler :=
  { h with recState := .idle }

/-- Modelled from the spec: the PhotoHandler object (photo_handler.cpp
is not under src/); a single in-flight flag plus the requested file
path (spec section 4.4). -/
structure PhotoHandler where
  capturing : Bool
  photoPath : String

/-- Modelled from the spec: PhotoHandler::OnPhotoTaken (photo_handler.cpp
is not under src/): completion clears the in-flight flag. -/
def PhotoHandler.onPhotoTaken (h : PhotoHandler) : PhotoHandler :=
  { h with capturing := false }

/-! ### Capture controller (CaptureControllerImpl,
capture_controller.cpp) -/

/-- CaptureEngineState (from capture_controller.h): the controller is
NOT_INITIALIZED, INITIALIZING, or INITIALIZED. -/
inductive CaptureEngineState
  | notInitialized
  | initializing
  | initialized
deriving DecidableEq

/-- The CaptureControllerListener callbacks invoked by the controller
(implemented by CameraImpl). -/
inductive ListenerCallback
  | createCaptureEngineSucceeded (textureId : Int)
  | createCaptureEngineFailed (error : String)
  | startPreviewSucceeded (width : Nat) (height : Nat)
  | startPreviewFailed (error : String)
  | pausePreviewSucceeded
  | pausePreviewFailed (error : String)
  | resumePreviewSucceeded
  | resumePreviewFailed (error : String)
  | startRecordSucceeded
  | startRecordFailed (error : String)
  | stopRecordSucceeded (filepath : String)
  | stopRecordFailed (error : String)
  | videoRecordSucceeded (filepath : String) (videoDuration : Nat)
  | videoRecordFailed (error : String)
  | takePictureSucceeded (filepath : String)
  | takePictureFailed (error : String)
  | captureError (error : String)
deriving DecidableEq

/-- An observable effect of a controller operation: either a listener
callback or a call into the native capture engine. -/
inductive CCEvent
  | listener (cb : ListenerCallback)
  | engineStopRecord
  | engineStopPreview
deriving DecidableEq

/-- State of a CaptureControllerImpl object.  The three handlers are
Option values (null pointers are none); sourceBufferData is the raw
frame buffer viewed as a pixel accessor; registerTextureResult is an
oracle for the id the texture registrar would assign.  The
capture_controller_listener_ pointer is taken to be non-null, as the
code asserts on every path that uses it (it is nulled only by the
controller destructor). -/
structure CCState where
  captureEngineState : CaptureEngineState
  previewHandler : Option PreviewState
  recordHandler : Option RecordHandler
  photoHandler : Option PhotoHandler
  previewFrameWidth : Nat
  previewFrameHeight : Nat
  sourceBufferData : Option (Nat → Nat × Nat × Nat)
  sourceBufferSize : Nat
  textureId : Int
  registerTextureResult : Int

/-- CaptureControllerImpl::OnRecordStopped (capture_controller.cpp lines
815-842): with a live record handler, always resolves the stop-record
listener channel, and additionally the video-record channel when the
recording is timed; on success the handler is notified, otherwise it is
destroyed. -/
def ccOnRecordStopped (s : CCState) (success : Bool) (error : String) :
    CCState × List CCEvent :=
  let evs :=
    match s.recordHandler with
    | some h =>
        if success = true then
          CCEvent.listener (.stopRecordSucceeded h.recordPath) ::
            (if h.isTimedRecording then
              [CCEvent.listener
                (.videoRecordSucceeded h.recordPath (h.getRecordedDuration / 1000))]
            else [])
        else
          CCEvent.listener (.stopRecordFailed error) ::
            (if h.isTimedRecording then
              [CCEvent.listener (.videoRecordFailed error)]
            else [])
    | none => []
  let s1 :=
    if success = true ∧ s.recordHandler.isSome then
      { s with recordHandler := s.recordHandler.map RecordHandler.onRecordStopped }
    else { s with recordHandler := none }
  (s1, evs)

/-- CaptureControllerImpl::StopTimedRecord (capture_controller.cpp lines
554-566): a no-op unless a timed recording is active; issues the engine
stop, and on engine failure destroys the handler and reports through the
video-record failure channel. -/
def ccStopTimedRecord (s : CCState) : CCState × List CCEvent :=
  match s.recordHandler with
  | none => (s, [])
  | some h =>
      if h.isTimedRecording then
        if h.stopSucceeds then
          ({ s with recordHandler := some h.markStopping }, [.engineStopRecord])
        else
          ({ s with recordHandler := none },
           [.engineStopRecord, .listener (.videoRecordFailed "Failed to record video")])
      else (s, [])

/-- CaptureControllerImpl::StopRecord (capture_controller.cpp lines
530-550).  The guard on line 539 is literally
(not record_handler_) AND (not record_handler_->CanStop()): when the
handler pointer is null the first operand is true and the second
operand dereferences the null pointer, so the run is undefined
behavior, modelled as none; when the handler pointer is non-null the
conjunction short-circuits to false without calling CanStop, so the
"Recording cannot be stopped." branch is unreachable and the engine
stop is issued regardless of CanStop. -/
def ccStopRecord (s : CCState) : Option (CCState × List CCEvent) :=
  if s.captureEngineState ≠ .initialized then
    some (ccOnRecordStopped s false
      "Camera not initialized. Camera should be disposed and reinitialized.")
  else
    match s.recordHandler with
    | none => none
    | some h =>
        if h.stopSucceeds then
          some ({ s with recordHandler := some h.markStopping }, [.engineStopRecord])
        else
          let s1 := { s with recordHandler := none }
          let r := ccOnRecordStopped s1 false "Failed to stop video recording"
          some (r.1, .engineStopRecord :: r.2)

/-- CaptureControllerImpl::StopPreview (capture_controller.cpp lines
611-621).  The guard returns early only when the engine is not
initialized AND the preview handler is null; consequently, when the
engine is initialized and the handler is null, the call on line 620
dereferences the null handler, modelled as none. -/
def ccStopPreview (s : CCState) : Option (CCState × List CCEvent) :=
  if s.captureEngineState ≠ .initialized ∧ s.previewHandler = none then
    some (s, [])
  else
    match s.previewHandler with
    | none => none
    | some ps =>
        let r := PreviewHandler.stopPreview ps
        some ({ s with previewHandler := some r.2 },
              if r.1 then [.engineStopPreview] else [])

/-- CaptureControllerImpl::ResetCaptureController (capture_controller.cpp
lines 243-291): stops an active recording (continuous via StopRecord,
timed via StopTimedRecord) and an active preview, then clears all
controller state.  The record and preview stop calls are guarded by
non-null handler checks, so the null-dereferencing paths of ccStopRecord
and ccStopPreview are unreachable here and getD is never taken. -/
def resetCaptureController (s : CCState) : CCState × List CCEvent :=
  let r1 :=
    match s.recordHandler with
    | some h =>
        if h.isContinuousRecording then (ccStopRecord s).getD (s, [])
        else if h.isTimedRecording then ccStopTimedRecord s
        else (s, [])
    | none => (s, [])
  let r2 :=
    match r1.1.previewHandler with
    | some _ => (ccStopPreview r1.1).getD (r1.1, [])
    | none => (r1.1, [])
  ({ r2.1 with
      captureEngineState := .notInitialized,
      recordHandler := none,
      previewHandler := none,
      photoHandler := none,
      previewFrameWidth := 0,
      previewFrameHeight := 0,
      textureId := -1 },
   r1.2 ++ r2.2)

/-- CaptureControllerImpl::OnCaptureEngineInitialized
(capture_controller.cpp lines 729-753): registers the presentation
texture; a nonnegative id moves the controller to INITIALIZED and
reports the id, otherwise the failure is reported and the controller is
fully reset.  The success flag of the event is not consulted by the
code. -/
def ccOnCaptureEngineInitialized (s : CCState) (success : Bool)
    (error : String) : CCState × List CCEvent :=
  let newTextureId := s.registerTextureResult
  if 0 ≤ newTextureId then
    ({ s with textureId := newTextureId, captureEngineState := .initialized },
     [.listener (.createCaptureEngineSucceeded newTextureId)])
  else
    let r := resetCaptureController s
    (r.1, .listener (.createCaptureEngineFailed "Failed to create texture_id") :: r.2)

/-- CaptureControllerImpl::OnCaptureEngineError (capture_controller.cpp
lines 756-764): forwards the error to the listener; no state change. -/
def ccOnCaptureEngineError (s : CCState) (error : String) :
    CCState × List CCEvent :=
  (s, [.listener (.captureError error)])

/-- CaptureControllerImpl::OnPreviewStopped (capture_controller.cpp
lines 789-794): destroys the preview handler. -/
def ccOnPreviewStopped (s : CCState) (success : Bool) (error : String) :
    CCState × List CCEvent :=
  ({ s with previewHandler := none }, [])

/-- CaptureControllerImpl::OnRecordStarted (capture_controller.cpp lines
797-812). -/
def ccOnRecordStarted (s : CCState) (success : Bool) (error : String) :
    CCState × List CCEvent :=
  if success = true ∧ s.recordHandler.isSome then
    ({ s with recordHandler := s.recordHandler.map RecordHandler.onRecordStarted },
     [.listener .startRecordSucceeded])
  else
    ({ s with recordHandler := none }, [.listener (.startRecordFailed error)])

/-- CaptureControllerImpl::OnPicture (capture_controller.cpp lines
711-725). -/
def ccOnPicture (s : CCState) (success : Bool) (error : String) :
    CCState × List CCEvent :=
  match s.photoHandler with
  | some h =>
      if success = true then
        ({ s with photoHandler := some h.onPhotoTaken },
         [.listener (.takePictureSucceeded h.photoPath)])
      else
        ({ s with photoHandler := none }, [.listener (.takePictureFailed error)])
  | none =>
      ({ s with photoHandler := none }, [.listener (.takePictureFailed error)])

/-- CaptureControllerImpl::OnPreviewStarted (capture_controller.cpp
lines 769-786): on success with a live handler the handler transitions
to RUNNING, otherwise the handler is destroyed; the listener receives
the start-preview success callback only when the preview frame
dimensions are positive. -/
def ccOnPreviewStarted (s : CCState) (success : Bool) (error : String) :
    CCState × List CCEvent :=
  let s1 :=
    if s.previewHandler.isSome ∧ success = true then
      { s with previewHandler := s.previewHandler.map PreviewHandler.onPreviewStarted }
    else { s with previewHandler := none }
  let evs :=
    if success = true ∧ 0 < s.previewFrameWidth ∧ 0 < s.previewFrameHeight then
      [CCEvent.listener (.startPreviewSucceeded s.previewFrameWidth s.previewFrameHeight)]
    else [CCEvent.listener (.startPreviewFailed error)]
  (s1, evs)

/-- The extended event categories dispatched by
CaptureControllerImpl::OnEvent (capture_controller.cpp lines 664-708). -/
inductive CaptureEngineEventType
  | engineError
  | engineInitialized
  | previewStarted
  | previewStopped
  | recordStarted
  | recordStopped
  | photoTaken
  | cameraStreamBlocked
  | cameraStreamUnblocked
deriving DecidableEq

/-- CaptureControllerImpl::OnEvent (capture_controller.cpp lines
664-708): ignores events unless the engine is INITIALIZING or
INITIALIZED, then dispatches by extended type.  The success flag and
translated error string of the event are taken as inputs (the code
derives them from the HRESULT of the event).  The PREVIEW_STARTED
category is deliberately not handled (lines 689-692): preview is marked
as started only after the first frame is captured.  The two
stream-blocked categories are unhandled TODO branches. -/
def ccOnEvent (s : CCState) (t : CaptureEngineEventType) (success : Bool)
    (error : String) : CCState × List CCEvent :=
  if s.captureEngineState = .notInitialized then (s, [])
  else
    match t with
    | .engineError => ccOnCaptureEngineError s error
    | .engineInitialized => ccOnCaptureEngineInitialized s success error
    | .previewStarted => (s, [])
    | .previewStopped => ccOnPreviewStopped s success error
    | .recordStarted => ccOnRecordStarted s success error
    | .recordStopped => ccOnRecordStopped s success error
    | .photoTaken => ccOnPicture s success error
    | .cameraStreamBlocked => (s, [])
    | .cameraStreamUnblocked => (s, [])

/-- CaptureControllerImpl::UpdateCaptureTime (capture_controller.cpp
lines 871-889): called once per delivered frame.  If the preview
handler is waiting for its first frame, the frame arrival itself
triggers OnPreviewStarted; then the record handler accumulates the
capture time and a timed recording is stopped once its budget has
passed. -/
def updateCaptureTime (s : CCState) (captureTimeUs : Nat) :
    CCState × List CCEvent :=
  if s.captureEngineState ≠ .initialized then (s, [])
  else
    let r1 :=
      match s.previewHandler with
      | some ps =>
          if PreviewHandler.isStarting ps then ccOnPreviewStarted s true ""
          else (s, [])
      | none => (s, [])
    match r1.1.recordHandler with
    | none => r1
    | some h =>
        let h1 := h.updateRecordingTime captureTimeUs
        let s2 := { r1.1 with recordHandler := some h1 }
        if h1.shouldStopTimedRecording then
          let r3 := ccStopTimedRecord s2
          (r3.1, r1.2 ++ r3.2)
        else (s2, r1.2)

/-- CaptureControllerImpl::PausePreview (capture_controller.cpp lines
626-640).  The guard on line 629 is literally
(not preview_handler_) AND (not preview_handler_->IsInitialized()):
when the handler pointer is null the second operand dereferences the
null pointer, so the run is undefined behavior, modelled as none; when
the handler pointer is non-null the conjunction short-circuits to false
and the "Preview not started" branch is unreachable. -/
def ccPausePreview (s : CCState) : Option (CCState × List CCEvent) :=
  match s.previewHandler with
  | none => none
  | some ps =>
      let r := PreviewHandler.pausePreview ps
      some ({ s with previewHandler := some r.2 },
            if r.1 then [.listener .pausePreviewSucceeded]
            else [.listener (.pausePreviewFailed "Failed to pause preview")])

/-- CaptureControllerImpl::ResumePreview (capture_controller.cpp lines
645-659): same malformed null guard as ccPausePreview; the failure
message of the resume path is the literal string of line 657. -/
def ccResumePreview (s : CCState) : Option (CCState × List CCEvent) :=
  match s.previewHandler with
  | none => none
  | some ps =>
      let r := PreviewHandler.resumePreview ps
      some ({ s with previewHandler := some r.2 },
            if r.1 then [.listener .resumePreviewSucceeded]
            else [.listener (.resumePreviewFailed "Failed to pause preview")])

/-- A pixel of the converted presentation buffer (FlutterDesktopPixel,
with channels r, g, b, a). -/
structure FlutterPixel where
  r : Nat
  g : Nat
  b : Nat
  a : Nat
deriving DecidableEq

/-- The presentation buffer returned by the pixel conversion
(FlutterDesktopPixelBuffer with its backing dest_buffer_). -/
structure FlutterPixelBuffer where
  width : Nat
  height : Nat
  pixels : List FlutterPixel
deriving DecidableEq

/-- CaptureControllerImpl::ConvertPixelBufferForFlutter
(capture_controller.cpp lines 337-364): requires raw source data, a
positive raw size and positive preview frame dimensions; the requested
target dimensions are unused by the code; every destination pixel takes
r, g, b from the corresponding source pixel and alpha 255; the returned
buffer is sized preview_frame_width by preview_frame_height. -/
def convertPixelBufferForFlutter (s : CCState)
    (targetWidth targetHeight : Nat) : Option FlutterPixelBuffer :=
  match s.sourceBufferData with
  | some src =>
      if 0 < s.sourceBufferSize ∧ 0 < s.previewFrameWidth ∧ 0 < s.previewFrameHeight then
        let pixelsTotal := s.previewFrameWidth * s.previewFrameHeight
        some { width := s.previewFrameWidth,
               height := s.previewFrameHeight,
               pixels := (List.range pixelsTotal).map fun i =>
                 { r := (src i).1, g := (src i).2.1, b := (src i).2.2, a := 255 } }
      else none
  | none => none

/-! ### Channel predicates and concrete states used in witnesses and
counterexamples -/

/-- True for the two callbacks of the stop-record pending-result
channel. -/
def isStopRecordChannel : CCEvent → Bool
  | .listener (.stopRecordSucceeded _) => true
  | .listener (.stopRecordFailed _) => true
  | _ => false

/-- True for the two callbacks of the asynchronous video-record push
channel. -/
def isVideoRecordChannel : CCEvent → Bool
  | .listener (.videoRecordSucceeded _ _) => true
  | .listener (.videoRecordFailed _) => true
  | _ => false

/-- A session host with a single pending takePicture result (token 3),
messenger set and camera id assigned. -/
def camA : CameraState :=
  { pendingResults := fun t => if t = PendingResultType.takePicture then some 3 else none,
    messenger := true, cameraId := 0, hasCaptureController := true }

/-- A session host before camera creation has completed: no messenger,
camera id still -1, but a pending createCamera result (token 1). -/
def camB : CameraState :=
  { pendingResults := fun t => if t = PendingResultType.createCamera then some 1 else none,
    messenger := false, cameraId := -1, hasCaptureController := true }

/-- An idle record handler: per the spec it reports that it cannot be
stopped. -/
def recIdle : RecordHandler :=
  { rtype := .continuous, recState := .idle, recordPath := "b.mp4",
    maxVideoDurationMs := 0, recordStartTimestampUs := none,
    recordedDurationUs := 0, stopSucceeds := true }

/-- A running timed record handler that has accumulated five seconds. -/
def recTimed : RecordHandler :=
  { rtype := .timed, recState := .running, recordPath := "a.mp4",
    maxVideoDurationMs := 5000, recordStartTimestampUs := some 0,
    recordedDurationUs := 5000000, stopSucceeds := true }

/-- An initialized controller with no handlers. -/
def ccNoRecorder : CCState :=
  { captureEngineState := .initialized, previewHandler := none,
    recordHandler := none, photoHandler := none,
    previewFrameWidth := 640, previewFrameHeight := 480,
    sourceBufferData := none, sourceBufferSize := 0,
    textureId := 1, registerTextureResult := 1 }

/-- An initialized controller whose record handler cannot stop. -/
def ccIdleRecorder : CCState := { ccNoRecorder with recordHandler := some recIdle }

/-- An initialized controller with an active timed recording. -/
def ccTimed : CCState := { ccNoRecorder with recordHandler := some recTimed }

/-- An initialized controller whose preview is paused. -/
def ccPaused : CCState := { ccNoRecorder with previewHandler := some PreviewState.paused }

/-- An initialized controller whose preview awaits its first frame. -/
def ccStartingPreview : CCState :=
  { ccNoRecorder with previewHandler := some PreviewState.starting }

/-- An initialized controller with a 2 by 1 raw frame available. -/
def ccWithFrame : CCState :=
  { captureEngineState := .initialized, previewHandler := some PreviewState.running,
    recordHandler := none, photoHandler := none,
    previewFrameWidth := 2, previewFrameHeight := 1,
    sourceBufferData := some fun i => (i, 10, 20),
    sourceBufferSize := 8, textureId := 1, registerTextureResult := 1 }

/-! ### Helper lemmas -/

/-- Every operation kind is listed in allPendingResultTypes. -/
theorem mem_allPendingResultTypes (t : PendingResultType) :
    t ∈ allPendingResultTypes := by
  cases t <;> simp [allPendingResultTypes]

/-- The resolutions performed by SendErrorForPendingResults are exactly
one error per pending token, in enumeration order. -/
theorem sendError_events_eq (s : CameraState) (eid d : String) :
    (sendErrorForPendingResults s eid d).2 =
      (pendingTokens s).map fun tok => (tok, MethodOutcome.methodError eid d) := by
  simp [sendErrorForPendingResults, pendingTokens, List.map_filterMap]

/-- The candidate loop of FindBestMediaType leaves the accumulator
untouched when every candidate height exceeds the cap. -/
theorem foldl_findBestStep_const (maxHeight : Nat) (cs : List (Nat × Nat))
    (acc : Option (Nat × Nat) × Nat × Nat)
    (h : ∀ d ∈ cs, maxHeight < d.2) :
    cs.foldl (findBestStep maxHeight) acc = acc := by
  induction cs generalizing acc with
  | nil => rfl
  | cons c cs ih =>
      have hc := h c (List.mem_cons_self c cs)
      have hstep : findBestStep maxHeight acc c = acc := by
        unfold findBestStep
        rw [if_neg]
        rintro ⟨hle, -⟩
        exact absurd hle (Nat.not_le.mpr hc)
      rw [List.foldl_cons, hstep]
      exact ih _ fun d hd => h d (List.mem_cons_of_mem _ hd)

/-- A media type selected by the candidate loop of FindBestMediaType is
one of the scanned candidates and fits under the cap, unless it was
already selected before the loop. -/
theorem foldl_findBestStep_mem (maxHeight : Nat) (cs : List (Nat × Nat)) :
    ∀ (acc : Option (Nat × Nat) × Nat × Nat) (d : Nat × Nat),
      (cs.foldl (findBestStep maxHeight) acc).1 = some d →
      acc.1 = some d ∨ (d ∈ cs ∧ d.2 ≤ maxHeight) := by
  induction cs with
  | nil => intro acc d h; exact Or.inl h
  | cons c cs ih =>
      intro acc d h
      rcases ih (findBestStep maxHeight acc c) d h with h1 | h2
      · unfold findBestStep at h1
        by_cases hcond : c.2 ≤ maxHeight ∧ (acc.2.1 < c.1 ∨ acc.2.2 < c.2)
        · rw [if_pos hcond] at h1
          injection h1 with h1
          subst h1
          exact Or.inr ⟨List.mem_cons_self _ _, hcond.1⟩
        · rw [if_neg hcond] at h1
          exact Or.inl h1
      · exact Or.inr ⟨List.mem_cons_of_mem _ h2.1, h2.2⟩

/-- Appending one candidate to the scan: it is selected exactly when it
fits under the cap and improves on the best width or height seen so
far, and otherwise the previous selection stands. -/
theorem findBestMediaType_append (maxHeight : Nat) (cs : List (Nat × Nat))
    (c : Nat × Nat) :
    findBestMediaType maxHeight (cs ++ [c]) =
      if c.2 ≤ maxHeight ∧ (bestWidth maxHeight cs < c.1 ∨ bestHeight maxHeight cs < c.2)
      then some c
      else findBestMediaType maxHeight cs := by
  unfold findBestMediaType bestWidth bestHeight
  rw [List.foldl_append]
  simp only [List.foldl_cons, List.foldl_nil]
  unfold findBestStep
  rw [apply_ite Prod.fst]

/-- Mapping first projections over a constant pairing recovers the
original list. -/
theorem map_fst_pair {β : Type} (l : List Nat) (y : β) :
    (l.map fun tk => ((tk, y) : Nat × β)).map Prod.fst = l := by
  induction l with
  | nil => rfl
  | cons a l ih => simp [ih]

/-- StopTimedRecord never touches the preview handler. -/
theorem ccStopTimedRecord_previewHandler (s : CCState) :
    (ccStopTimedRecord s).1.previewHandler = s.previewHandler := by
  unfold ccStopTimedRecord
  cases hs : s.recordHandler with
  | none => rfl
  | some h =>
      dsimp only
      split_ifs <;> rfl

/-! ### Claim theorems -/

/-- Claim C1: for every operation kind, if a pending result already
exists for that kind, AddPendingResult rejects the second request with
the "Duplicate request" error on the newly supplied result, returns
false, leaves the map unchanged, and the first pending slot can still
be retrieved afterwards, so the eventual resolution of the first
request is unaffected. -/
theorem addPendingResult_duplicate_rejected (s : CameraState)
    (t : PendingResultType) (tok0 tok : Nat)
    (h : s.pendingResults t = some tok0) :
    (addPendingResult s t tok).1 = false ∧
    (addPendingResult s t tok).2.1 = s ∧
    (addPendingResult s t tok).2.2 =
      [(tok, .methodError "Duplicate request" "Method handler already called")] ∧
    (getPendingResultByType (addPendingResult s t tok).2.1 t).1 = some tok0 := by
  simp [addPendingResult, getPendingResultByType, h]

/-- Witness for C1 at a concrete state with a pending takePicture
result. -/
theorem addPendingResult_duplicate_rejected_witness :
    (addPendingResult camA PendingResultType.takePicture 9).1 = false ∧
    (addPendingResult camA PendingResultType.takePicture 9).2.1 = camA ∧
    (addPendingResult camA PendingResultType.takePicture 9).2.2 =
      [(9, .methodError "Duplicate request" "Method handler already called")] ∧
    (getPendingResultByType (addPendingResult camA PendingResultType.takePicture 9).2.1
        PendingResultType.takePicture).1 = some 3 :=
  addPendingResult_duplicate_rejected camA PendingResultType.takePicture 3 9 rfl

/-- Claim C2: disposing the session host resolves every pending result
with the fixed disposal error exactly once (one resolution per pending
slot, in enumeration order) and leaves the pending map empty. -/
theorem cameraDispose_resolves_all (s : CameraState) (t : PendingResultType)
    (tok : Nat) (h : s.pendingResults t = some tok) :
    (∀ u, (cameraDispose s).1.pendingResults u = none) ∧
    (cameraDispose s).2.map Prod.fst = pendingTokens s ∧
    (cameraDispose s).2.length = (pendingTokens s).length ∧
    ((tok, MethodOutcome.methodError "Plugin disposed"
        "Plugin disposed before request was handled") ∈ (cameraDispose s).2) ∧
    (∀ e ∈ (cameraDispose s).2,
      e.2 = MethodOutcome.methodError "Plugin disposed"
        "Plugin disposed before request was handled") := by
  have hev : (cameraDispose s).2 = (pendingTokens s).map fun tk =>
      (tk, MethodOutcome.methodError "Plugin disposed"
        "Plugin disposed before request was handled") := by
    simpa [cameraDispose, pendingTokens] using
      sendError_events_eq { s with hasCaptureController := false }
        "Plugin disposed" "Plugin disposed before request was handled"
  refine ⟨?_, ?_, ?_, ?_, ?_⟩
  · intro u
    simp [cameraDispose, sendErrorForPendingResults]
  · rw [hev]
    exact map_fst_pair _ _
  · rw [hev]
    simp
  · rw [hev]
    exact List.mem_map.mpr
      ⟨tok, List.mem_filterMap.mpr ⟨t, mem_allPendingResultTypes t, h⟩, rfl⟩
  · rw [hev]
    intro e he
    obtain ⟨tk, -, rfl⟩ := List.mem_map.mp he
    rfl

/-- Witness for C2 at a concrete state with one pending result. -/
theorem cameraDispose_resolves_all_witness :
    (cameraDispose camA).1.pendingResults PendingResultType.takePicture = none ∧
    ((3, MethodOutcome.methodError "Plugin disposed"
        "Plugin disposed before request was handled") ∈ (cameraDispose camA).2) := by
  have h := cameraDispose_resolves_all camA PendingResultType.takePicture 3 rfl
  exact ⟨h.1 _, h.2.2.2.1⟩

/-- Claim C4, counterexample: at a state with a pending createCamera
result but no messenger and camera id -1 (as before camera creation
completes), a pipeline error event fails the pending results but emits
zero error push notifications, not exactly one as claimed. -/
theorem onCaptureError_counterexample :
    camB.pendingResults PendingResultType.createCamera = some 1 ∧
    (onCaptureError camB "access lost").2.1 = [] ∧
    ¬((onCaptureError camB "access lost").2.1.length = 1) := by
  refine ⟨rfl, rfl, ?_⟩
  intro h
  simp [onCaptureError, camB] at h

/-- Claim C4, amended: in every state, a pipeline error event fails
every currently pending result (of every operation kind) with the
generic capture_error reason, one resolution per pending slot, leaving
zero pending results; the error push notification is emitted exactly
once when the messenger is set and the camera id is nonnegative (camera
creation has completed), and not at all otherwise. -/
theorem onCaptureError_behavior (s : CameraState) (error : String) :
    (s.messenger = true → 0 ≤ s.cameraId →
      (onCaptureError s error).2.1 = [BridgeEvent.errorEvent error]) ∧
    (¬(s.messenger = true ∧ 0 ≤ s.cameraId) →
      (onCaptureError s error).2.1 = []) ∧
    (∀ u, (onCaptureError s error).1.pendingResults u = none) ∧
    (onCaptureError s error).2.2.map Prod.fst = pendingTokens s ∧
    (onCaptureError s error).2.2.length = (pendingTokens s).length ∧
    (∀ e ∈ (onCaptureError s error).2.2,
      e.2 = MethodOutcome.methodError "capture_error" error) := by
  have hev : (onCaptureError s error).2.2 = (pendingTokens s).map fun tk =>
      (tk, MethodOutcome.methodError "capture_error" error) := by
    simpa [onCaptureError] using sendError_events_eq s "capture_error" error
  refine ⟨?_, ?_, ?_, ?_, ?_, ?_⟩
  · intro hm hc
    simp [onCaptureError, hm, hc]
  · intro hneg
    show (if s.messenger = true ∧ 0 ≤ s.cameraId then [BridgeEvent.errorEvent error]
          else []) = []
    exact if_neg hneg
  · intro u
    simp [onCaptureError, sendErrorForPendingResults]
  · rw [hev]
    exact map_fst_pair _ _
  · rw [hev]
    simp
  · rw [hev]
    intro e he
    obtain ⟨tk, -, rfl⟩ := List.mem_map.mp he
    rfl

/-- Witness for the amended C4, at a created camera where the push
fires once, and at a pre-creation state with a pending result where the
push is suppressed while the pending result is still failed and the map
emptied. -/
theorem onCaptureError_behavior_witness :
    (onCaptureError camA "bad").2.1 = [BridgeEvent.errorEvent "bad"] ∧
    (onCaptureError camA "bad").1.pendingResults PendingResultType.takePicture = none ∧
    (onCaptureError camB "bad").2.1 = [] ∧
    (onCaptureError camB "bad").1.pendingResults PendingResultType.createCamera = none ∧
    (onCaptureError camB "bad").2.2.map Prod.fst = pendingTokens camB := by
  have hA := onCaptureError_behavior camA "bad"
  have hB := onCaptureError_behavior camB "bad"
  exact ⟨hA.1 rfl (by decide), hA.2.2.1 _, hB.2.1 (by decide), hB.2.2.1 _,
    hB.2.2.2.1⟩

/-- Claim C10: OnVideoRecordFailed is a no-op for every error string: no
bridge notification, no pending-result resolution, and the session-host
state is unchanged. -/
theorem onVideoRecordFailed_is_noop :
    ∀ (s : CameraState) (error : String),
      onVideoRecordFailed s error = (s, [], []) :=
  fun _ _ => rfl

/-- Claim C5: the preset-to-cap mapping is 240/480/720/1080/2160 with
AUTO unbounded; FindBestMediaType fails when no candidate satisfies the
cap; on each scanned candidate the selection is replaced exactly when
the candidate fits under the cap and strictly exceeds the best width or
height seen so far (so the final choice is the last such candidate in
input order); and any selected candidate is a scanned candidate
satisfying the cap. -/
theorem findBestMediaType_selection (maxHeight : Nat) (c : Nat × Nat)
    (cs : List (Nat × Nat)) :
    (getMaxPreviewHeight .low = 240 ∧ getMaxPreviewHeight .medium = 480 ∧
     getMaxPreviewHeight .high = 720 ∧ getMaxPreviewHeight .veryHigh = 1080 ∧
     getMaxPreviewHeight .ultraHigh = 2160 ∧
     getMaxPreviewHeight .auto = 4294967295) ∧
    ((∀ d ∈ cs, maxHeight < d.2) → findBestMediaType maxHeight cs = none) ∧
    (findBestMediaType maxHeight (cs ++ [c]) =
      if c.2 ≤ maxHeight ∧
          (bestWidth maxHeight cs < c.1 ∨ bestHeight maxHeight cs < c.2)
      then some c
      else findBestMediaType maxHeight cs) ∧
    (∀ d, findBestMediaType maxHeight cs = some d → d ∈ cs ∧ d.2 ≤ maxHeight) ∧
    (∀ hgt : Nat, hgt < 4294967296 → hgt ≤ getMaxPreviewHeight .auto) := by
  refine ⟨⟨rfl, rfl, rfl, rfl, rfl, rfl⟩, ?_,
    findBestMediaType_append maxHeight cs c, ?_, ?_⟩
  · intro h
    unfold findBestMediaType
    rw [foldl_findBestStep_const maxHeight cs _ h]
  · intro d hd
    rcases foldl_findBestStep_mem maxHeight cs _ d hd with h | h
    · exact absurd h (by simp)
    · exact h
  · intro hgt hle
    have hauto : getMaxPreviewHeight .auto = 4294967295 := rfl
    omega

/-- Witness for C5: the MEDIUM cap is 480; with cap 240 and no fitting
candidate, selection fails; with cap 480, appending a strictly better
fitting candidate makes it the selection. -/
theorem findBestMediaType_selection_witness :
    getMaxPreviewHeight ResolutionPreset.medium = 480 ∧
    findBestMediaType 240 [(640, 480), (1280, 720)] = none ∧
    findBestMediaType 480 ([(320, 240)] ++ [(640, 480)]) = some (640, 480) := by
  have h1 := findBestMediaType_selection 240 (0, 0) [(640, 480), (1280, 720)]
  have h2 := findBestMediaType_selection 480 (640, 480) [(320, 240)]
  refine ⟨h1.1.2.1, h1.2.1 (by decide), ?_⟩
  rw [h2.2.2.1]
  decide

/-- Claim C3: the claim describes the intended behavior, but the guard
of StopRecord short-circuits wrongly.  At an initialized controller
with no record handler, the call dereferences the null handler
(modelled as none, a crash); and with a handler that reports it cannot
be stopped, the guard is skipped entirely and the engine stop call is
issued anyway, instead of failing with the unreachable "Recording
cannot be stopped." branch. -/
theorem stopRecord_null_guard_bug :
    ccStopRecord ccNoRecorder = none ∧
    RecordHandler.canStop recIdle = false ∧
    (ccStopRecord ccIdleRecorder).map Prod.snd = some [CCEvent.engineStopRecord] :=
  ⟨rfl, rfl, rfl⟩

/-- Claim C8: the preview handler itself pauses only from RUNNING and
resumes only from PAUSED, failing without a state change otherwise, and
the session level reports failures through the failure callbacks; but
when no preview handler exists, PausePreview and ResumePreview
dereference the null handler (modelled as none, a crash) instead of
reporting the unreachable "Preview not started" failure. -/
theorem pausePreview_null_guard_bug :
    ccPausePreview ccNoRecorder = none ∧
    ccResumePreview ccNoRecorder = none ∧
    PreviewHandler.pausePreview .running = (true, .paused) ∧
    PreviewHandler.pausePreview .paused = (false, .paused) ∧
    PreviewHandler.pausePreview .starting = (false, .starting) ∧
    PreviewHandler.pausePreview .stopped = (false, .stopped) ∧
    PreviewHandler.resumePreview .paused = (true, .running) ∧
    PreviewHandler.resumePreview .running = (false, .running) ∧
    PreviewHandler.resumePreview .stopped = (false, .stopped) ∧
    (ccPausePreview ccPaused).map Prod.snd =
      some [CCEvent.listener (.pausePreviewFailed "Failed to pause preview")] :=
  ⟨rfl, rfl, rfl, rfl, rfl, rfl, rfl, rfl, rfl, rfl⟩

/-- Claim C7: on a record-stopped event with a live record handler, the
stop-record pending-result channel always fires exactly once; the
asynchronous video-record push channel fires exactly once more when the
recording is timed and not at all otherwise, with the success payloads
carrying the record path and the recorded duration in milliseconds. -/
theorem onRecordStopped_two_channels (s : CCState) (h : RecordHandler)
    (success : Bool) (error : String) (hh : s.recordHandler = some h) :
    ((ccOnRecordStopped s success error).2.countP isStopRecordChannel = 1) ∧
    ((ccOnRecordStopped s success error).2.countP isVideoRecordChannel =
      if h.rtype = .timed then 1 else 0) ∧
    ((ccOnRecordStopped s success error).2.length =
      if h.rtype = .timed then 2 else 1) ∧
    (success = true → h.rtype = .timed →
      CCEvent.listener (.stopRecordSucceeded h.recordPath) ∈
        (ccOnRecordStopped s success error).2 ∧
      CCEvent.listener
          (.videoRecordSucceeded h.recordPath (h.recordedDurationUs / 1000)) ∈
        (ccOnRecordStopped s success error).2) := by
  cases success <;> rcases hrt : h.rtype with _ | _ <;>
    simp [ccOnRecordStopped, hh, RecordHandler.isTimedRecording,
      RecordHandler.getRecordedDuration, hrt, isStopRecordChannel,
      isVideoRecordChannel, List.countP_cons, List.countP_nil]

/-- Witness for C7 at a concrete timed recording: one stop of a timed
recording produces two notifications, including the video-record push
with path and duration in milliseconds. -/
theorem onRecordStopped_two_channels_witness :
    (ccOnRecordStopped ccTimed true "").2.length = 2 ∧
    CCEvent.listener (.videoRecordSucceeded "a.mp4" 5000) ∈
      (ccOnRecordStopped ccTimed true "").2 := by
  have h := onRecordStopped_two_channels ccTimed recTimed true "" rfl
  refine ⟨by simpa using h.2.2.1, ?_⟩
  have h2 := (h.2.2.2 rfl rfl).2
  simpa [recTimed] using h2

/-- Claim C6: the event router returns the state unchanged and emits
nothing for the native preview-started event, for every state; and a
frame delivered while the preview handler is STARTING transitions the
handler to RUNNING and emits the start-preview success callback with
the preview dimensions as the first effect. -/
theorem previewStarted_by_frame_not_event (s : CCState) (t : Nat)
    (hstate : s.captureEngineState = .initialized)
    (hph : s.previewHandler = some PreviewState.starting)
    (hw : 0 < s.previewFrameWidth) (hhgt : 0 < s.previewFrameHeight) :
    (∀ (s2 : CCState) (b : Bool) (e : String),
      ccOnEvent s2 .previewStarted b e = (s2, [])) ∧
    (updateCaptureTime s t).1.previewHandler = some PreviewState.running ∧
    (updateCaptureTime s t).2.head? =
      some (CCEvent.listener
        (.startPreviewSucceeded s.previewFrameWidth s.previewFrameHeight)) := by
  have hrouter : ∀ (s2 : CCState) (b : Bool) (e : String),
      ccOnEvent s2 .previewStarted b e = (s2, []) := by
    intro s2 b e
    unfold ccOnEvent
    by_cases hg : s2.captureEngineState = .notInitialized <;> simp [hg]
  have hps : ccOnPreviewStarted s true "" =
      ({ s with previewHandler := some PreviewState.running },
       [CCEvent.listener
         (.startPreviewSucceeded s.previewFrameWidth s.previewFrameHeight)]) := by
    unfold ccOnPreviewStarted
    rw [hph]
    simp [PreviewHandler.onPreviewStarted, hw, hhgt]
  refine ⟨hrouter, ?_⟩
  cases hr : s.recordHandler with
  | none =>
      constructor <;>
        simp [updateCaptureTime, hstate, hph, hr, hps, PreviewHandler.isStarting]
  | some h =>
      by_cases hstop : (h.updateRecordingTime t).shouldStopTimedRecording = true
      · constructor
        · simp [updateCaptureTime, hstate, hph, hr, hps, PreviewHandler.isStarting,
            hstop, ccStopTimedRecord_previewHandler]
        · simp [updateCaptureTime, hstate, hph, hr, hps, PreviewHandler.isStarting,
            hstop]
      · constructor <;>
          simp [updateCaptureTime, hstate, hph, hr, hps, PreviewHandler.isStarting,
            hstop]

/-- Witness for C6 at a concrete initialized controller whose preview
is waiting for its first frame. -/
theorem previewStarted_by_frame_not_event_witness :
    (updateCaptureTime ccStartingPreview 0).1.previewHandler =
      some PreviewState.running ∧
    (updateCaptureTime ccStartingPreview 0).2.head? =
      some (CCEvent.listener (.startPreviewSucceeded 640 480)) := by
  have h := previewStarted_by_frame_not_event ccStartingPreview 0 rfl rfl
    (by decide) (by decide)
  exact ⟨h.2.1, h.2.2⟩

/-- Claim C9: the pixel conversion ignores the requested target
dimensions, and whenever raw source data exists and the preview
dimensions are positive it returns a buffer sized exactly
previewFrameWidth by previewFrameHeight whose every pixel copies r, g,
b from the raw buffer and forces alpha to 255; otherwise it returns no
buffer. -/
theorem convertPixelBuffer_behavior (s : CCState) (tw th : Nat) :
    convertPixelBufferForFlutter s tw th = convertPixelBufferForFlutter s 0 0 ∧
    (∀ src, s.sourceBufferData = some src → 0 < s.sourceBufferSize →
      0 < s.previewFrameWidth → 0 < s.previewFrameHeight →
      ∃ buf, convertPixelBufferForFlutter s tw th = some buf ∧
        buf.width = s.previewFrameWidth ∧
        buf.height = s.previewFrameHeight ∧
        buf.pixels.length = s.previewFrameWidth * s.previewFrameHeight ∧
        ∀ i, i < s.previewFrameWidth * s.previewFrameHeight →
          buf.pixels[i]? =
            some { r := (src i).1, g := (src i).2.1, b := (src i).2.2, a := 255 }) ∧
    ((s.sourceBufferData = none ∨ s.sourceBufferSize = 0 ∨
        s.previewFrameWidth = 0 ∨ s.previewFrameHeight = 0) →
      convertPixelBufferForFlutter s tw th = none) := by
  refine ⟨rfl, ?_, ?_⟩
  · intro src hsrc h1 h2 h3
    refine ⟨{ width := s.previewFrameWidth, height := s.previewFrameHeight,
              pixels := (List.range (s.previewFrameWidth * s.previewFrameHeight)).map
                fun i => { r := (src i).1, g := (src i).2.1, b := (src i).2.2, a := 255 } },
            ?_, rfl, rfl, ?_, ?_⟩
    · simp only [convertPixelBufferForFlutter, hsrc]
      rw [if_pos ⟨h1, h2, h3⟩]
    · simp
    · intro i hi
      simp [List.getElem?_map, List.getElem?_range, hi]
  · intro hcase
    cases hs : s.sourceBufferData with
    | none => simp [convertPixelBufferForFlutter, hs]
    | some src =>
        have hneg : ¬(0 < s.sourceBufferSize ∧ 0 < s.previewFrameWidth ∧
            0 < s.previewFrameHeight) := by
          rcases hcase with h | h | h | h
          · rw [hs] at h
            cases h
          all_goals simp [h]
        simp [convertPixelBufferForFlutter, hs, hneg]

/-- Witness for C9 at a concrete controller holding a 2 by 1 raw
frame. -/
theorem convertPixelBuffer_behavior_witness :
    convertPixelBufferForFlutter ccWithFrame 7 9 =
      convertPixelBufferForFlutter ccWithFrame 0 0 ∧
    (convertPixelBufferForFlutter ccWithFrame 7 9).isSome = true ∧
    convertPixelBufferForFlutter ccNoRecorder 7 9 = none := by
  have h := convertPixelBuffer_behavior ccWithFrame 7 9
  have h2 := h.2.1 (fun i => (i, 10, 20)) rfl (by decide) (by decide) (by decide)
  obtain ⟨buf, hbuf, -, -, -, -⟩ := h2
  exact ⟨h.1, by simp [hbuf],
    (convertPixelBuffer_behavior ccNoRecorder 7 9).2.2 (Or.inl rfl)⟩

end CameraWindows
